import Mathlib

/-!
Formal model of the antoni-ia-fastapi remote-power controller (src/main.py).

The service keeps a single persisted record (status/status.json) with the
observation flags `logical_on` / `phisical_on`, the reference counter
`peticions_ollama`, the `permanent_on` override, a human-readable `message`
and a `datetime` stamp rewritten on every persisted write.  Endpoints
reconcile this record against live probes, apply counter rules, and drive a
Wake-on-LAN sender and an SSH shutdown sequence.

Modelling conventions:
* one `Env` value describes the external world during a single request; all
  probes performed inside that request observe the same reality (the code
  probes the host more than once per request with the same target and
  timeout);
* the persisted record is threaded explicitly: each operation takes the
  currently persisted `Status` and returns the final persisted `Status`
  (the lazy creation of the record from base.json when the file is missing
  is a separate branch of `read_status` in the source and is not needed by
  the properties below, which all start from an existing record);
* `datetime` is an abstract tick (`Nat`), set from `Env.now` on every write,
  mirroring `write_status` updating the timestamp on each persisted
  mutation;
* the Wake-on-LAN transmission is modelled as succeeding (it is a
  fire-and-forget UDP send in the source; a raising transport aborts the
  request before any write and is outside the properties below);
* I/O failures of the status file itself (swallowed by `write_status`) are
  not modelled.
-/

/-- The persisted equipment-state record (the seven-field status.json with
the timestamp abstracted to a tick). -/
structure Status where
  logical_on : Bool
  phisical_on : Bool
  peticions_ollama : Int
  permanent_on : Bool
  message : String
  datetime : Nat
deriving Repr, DecidableEq

/-- Outcome of the HTTP health check against the Ollama service
(GET /api/tags with a 5 s timeout), as distinguished by the source's
exception handlers. -/
inductive ServiceProbe where
  | ok
  | badStatus (code : Nat)
  | connectError (msg : String)
  | timeout
  | otherError (msg : String)
deriving Repr, DecidableEq

/-- External world as observed during one request: the TCP reachability of
the host (check_host_connectivity), the service health outcome, and the
current write timestamp. -/
structure Env where
  hostOnline : Bool
  service : ServiceProbe
  now : Nat
deriving Repr, DecidableEq

/-- Static configuration loaded from the environment, as used in messages. -/
structure Config where
  equipoIA : String
  iaMac : String
  ollamaPort : String
  sshPort : Nat
  wolBroadcast : String
  wolPort : Nat
deriving Repr, DecidableEq

/-- Whether the service probe reported status 200. -/
def serviceOk : ServiceProbe → Bool
  | .ok => true
  | _ => false

/-- The logical observation of one request: `ollama_online` starts False and
is only probed when the host probe succeeded. -/
def ollamaObserved (e : Env) : Bool :=
  e.hostOnline && serviceOk e.service

/-- The diagnostic message built by the probe section of read_status (and of
the /test endpoint), one case per outcome. -/
def probeMensaje (cfg : Config) (e : Env) : String :=
  if e.hostOnline then
    match e.service with
    | .ok => "Equip i Ollama funcionant correctament"
    | .badStatus code => "Equip online però Ollama ha respost amb codi " ++ toString code
    | .connectError m =>
        "Equip online però no es pot connectar a Ollama al port " ++ cfg.ollamaPort ++ " : " ++ m
    | .timeout => "Equip online però Ollama no respon (timeout)"
    | .otherError m => "Equip online però error en verificar Ollama: " ++ m
  else "Equip no accessible a " ++ cfg.equipoIA ++ ":" ++ toString cfg.sshPort

/-- Reconciliation step of read_status on an existing persisted record:
probe the host and the service, and if either observed flag differs from
the stored flag, overwrite both flags, set the message and persist (the
Boolean records whether a write was performed). -/
def read_status (cfg : Config) (e : Env) (s : Status) : Status × Bool :=
  let equipoOnline := e.hostOnline
  let ollamaOnline := ollamaObserved e
  if s.logical_on != ollamaOnline || s.phisical_on != equipoOnline then
    ({ s with
        logical_on := ollamaOnline
        phisical_on := equipoOnline
        message := "Estat verificat: " ++ probeMensaje cfg e
        datetime := e.now }, true)
  else (s, false)

/-- Mutation primitive update_status: re-read (and reconcile) the persisted
record, overwrite the given fields, set the message, and persist with a
fresh timestamp. -/
def update_status (cfg : Config) (e : Env) (s : Status)
    (updates : Status → Status) (message : String) : Status :=
  let cur := (read_status cfg e s).1
  { updates cur with message := message, datetime := e.now }

/-- Error responses surfaced by the endpoints, by HTTP meaning: 401, 503,
504, 500, and the pass-through of an upstream status code. -/
inductive HTTPError where
  | unauthorized (detail : String)
  | serviceUnavailable (detail : String)
  | gatewayTimeout (detail : String)
  | internalError (detail : String)
  | upstream (code : Nat) (detail : String)
deriving Repr, DecidableEq

/-- Success payload of the power endpoints. -/
structure MessageResponse where
  success : Bool
  mensaje : String
deriving Repr, DecidableEq

/-- Outcome of opening one SSH session and running one command: the connect
either raises an authentication error, raises some other exception, or the
command runs to an exit status. -/
inductive SshConnect where
  | ok
  | authFail (msg : String)
  | otherFail (msg : String)
deriving Repr, DecidableEq

/-- External behaviour of the two SSH shutdown attempts of one request: the
privileged (sudo) attempt with its captured exit status, stdout and stderr,
and the non-privileged fallback attempt, whose stdout and stderr the source
never reads (only its exit status is consulted). -/
structure ShutdownEnv where
  sudoConnect : SshConnect
  sudoExit : Nat
  sudoStdout : String
  sudoStderr : String
  fallbackConnect : SshConnect
  fallbackExit : Nat
  fallbackStdout : String
  fallbackStderr : String
deriving Repr, DecidableEq

/-- The SSH shutdown sequence shared verbatim by /apagar and /shutdown:
run the sudo shutdown command; on non-zero exit retry once without sudo on
a fresh connection; if that also exits non-zero, raise an internal error
built from the sudo attempt's captured stdout and stderr; an exception in
the fallback (its connect included) is folded into an internal error;
an authentication failure on the first connect maps to 401; any other
exception on the first connect maps to the caller's generic internal
error (`genericDetail`). -/
def ssh_shutdown (genericDetail : String → String) (senv : ShutdownEnv) :
    Except HTTPError Unit :=
  match senv.sudoConnect with
  | .authFail _ =>
      .error (.unauthorized "Error d\x27autenticació SSH. Verifica SSH_USER i SSH_PASS")
  | .otherFail m => .error (.internalError (genericDetail m))
  | .ok =>
      if senv.sudoExit != 0 then
        match senv.fallbackConnect with
        | .ok =>
            if senv.fallbackExit != 0 then
              .error (.internalError
                ("Error en executar shutdown. Sortida: " ++ senv.sudoStdout ++
                  ". Error: " ++ senv.sudoStderr))
            else .ok ()
        | .authFail m =>
            .error (.internalError
              ("Sudo ha fallat i shutdown sense sudo també: " ++ senv.sudoStderr ++ ". " ++ m))
        | .otherFail m =>
            .error (.internalError
              ("Sudo ha fallat i shutdown sense sudo també: " ++ senv.sudoStderr ++ ". " ++ m))
      else .ok ()

/-- Generic SSH error detail of /apagar. -/
def apagarSshDetail (m : String) : String :=
  "Error en apagar equip via SSH: " ++ m

/-- Generic SSH error detail of /shutdown. -/
def shutdownForceDetail (m : String) : String :=
  "Error en executar shutdown forçat: " ++ m

/-- Result of /arrancar: the final persisted record, whether the magic
packet was sent, and the response payload. -/
structure WakeResult where
  state : Status
  wolSent : Bool
  response : MessageResponse
deriving Repr, DecidableEq

/-- Result of /apagar and /shutdown: the final persisted record, whether the
SSH shutdown sequence was entered, and the outcome. -/
structure PowerOpResult where
  state : Status
  shutdownAttempted : Bool
  outcome : Except HTTPError MessageResponse

/-- The /arrancar endpoint: read-reconcile, probe the host, always increment
the counter; if the host is already reachable persist counter and
phisical_on without sending a packet, otherwise send the magic packet and
persist only the counter. -/
def arrancar_equipo (cfg : Config) (e : Env) (s : Status) : WakeResult :=
  let current := (read_status cfg e s).1
  let newPeticions := current.peticions_ollama + 1
  if e.hostOnline then
    let st := update_status cfg e s
      (fun cur => { cur with peticions_ollama := newPeticions, phisical_on := true })
      ("Arrancar: Equip ja encès. Peticions: " ++ toString newPeticions)
    { state := st
      wolSent := false
      response :=
        { success := true
          mensaje := "L\x27equip ja està encès i responent a " ++ cfg.equipoIA ++ ":" ++
            toString cfg.sshPort ++ ". Peticions Ollama: " ++ toString newPeticions } }
  else
    let st := update_status cfg e s
      (fun cur => { cur with peticions_ollama := newPeticions })
      ("Arrancar: Magic packet enviat. Peticions: " ++ toString newPeticions)
    { state := st
      wolSent := true
      response :=
        { success := true
          mensaje := "Magic packet enviat a " ++ cfg.iaMac ++ " via " ++ cfg.wolBroadcast ++
            ":" ++ toString cfg.wolPort ++ ". Peticions Ollama: " ++ toString newPeticions } }

/-- The reason string of the blocked branch of /apagar. -/
def apagarReason (permanentOn : Bool) (newPeticions : Int) : String :=
  if permanentOn then "permanent_on activat"
  else "hi ha " ++ toString newPeticions ++ " petició(ns) activa(es)"

/-- The /apagar endpoint: read-reconcile, probe the host; if unreachable,
decrement (floored at 0) and persist with both flags off; if reachable,
decrement and power off physically only when the new counter is below 1 and
permanent_on is off, persisting the decrement together with the off flags
only after the SSH sequence succeeds (on SSH failure nothing further is
persisted and the error is surfaced). -/
def apagar_equipo (cfg : Config) (e : Env) (senv : ShutdownEnv) (s : Status) :
    PowerOpResult :=
  let current := (read_status cfg e s).1
  if !e.hostOnline then
    let newPeticions := max 0 (current.peticions_ollama - 1)
    let st := update_status cfg e s
      (fun cur =>
        { cur with
            peticions_ollama := newPeticions
            phisical_on := false
            logical_on := false })
      ("Apagar: Equip ja apagat. Peticions: " ++ toString newPeticions)
    { state := st
      shutdownAttempted := false
      outcome := .ok
        { success := true
          mensaje := "L\x27equip ja està apagat. Peticions Ollama: " ++ toString newPeticions } }
  else
    let newPeticions := max 0 (current.peticions_ollama - 1)
    let permanentOn := current.permanent_on
    let shouldShutdownPhysically := decide (newPeticions < 1) && !permanentOn
    if !shouldShutdownPhysically then
      let reason := apagarReason permanentOn newPeticions
      let st := update_status cfg e s
        (fun cur => { cur with peticions_ollama := newPeticions })
        ("Apagar: No s\x27apaga físicament (" ++ reason ++ "). Peticions: " ++
          toString newPeticions)
      { state := st
        shutdownAttempted := false
        outcome := .ok
          { success := true
            mensaje := "Comptador decrementat a " ++ toString newPeticions ++
              ". No s\x27apaga físicament: " ++ reason } }
    else
      match ssh_shutdown apagarSshDetail senv with
      | .error err => { state := current, shutdownAttempted := true, outcome := .error err }
      | .ok _ =>
          let st := update_status cfg e s
            (fun cur =>
              { cur with
                  peticions_ollama := newPeticions
                  logical_on := false
                  phisical_on := false })
            ("Apagar: Apagat físic enviat. Peticions: " ++ toString newPeticions)
          { state := st
            shutdownAttempted := true
            outcome := .ok
              { success := true
                mensaje := "Apagat físic enviat. Peticions: " ++ toString newPeticions ++
                  ". L\x27equip s\x27apagarà aviat." } }

/-- The /shutdown endpoint (forced shutdown): probe the host directly (no
prior reconcile); if unreachable persist the full reset; if reachable run
the SSH sequence unconditionally, ignoring counter and permanent_on, and
persist the full reset only on success. -/
def shutdown_force (cfg : Config) (e : Env) (senv : ShutdownEnv) (s : Status) :
    PowerOpResult :=
  if !e.hostOnline then
    let st := update_status cfg e s
      (fun cur =>
        { cur with
            permanent_on := false
            logical_on := false
            phisical_on := false
            peticions_ollama := 0 })
      "Shutdown forçat: Equip ja estava apagat, estat resetejat"
    { state := st
      shutdownAttempted := false
      outcome := .ok
        { success := true
          mensaje := "L\x27equip ja està apagat. Estat resetejat completament." } }
  else
    match ssh_shutdown shutdownForceDetail senv with
    | .error err => { state := s, shutdownAttempted := true, outcome := .error err }
    | .ok _ =>
        let st := update_status cfg e s
          (fun cur =>
            { cur with
                permanent_on := false
                logical_on := false
                phisical_on := false
                peticions_ollama := 0 })
          "Shutdown forçat: Apagat físic enviat, estat completament resetejat"
        { state := st
          shutdownAttempted := true
          outcome := .ok
            { success := true
              mensaje :=
                "Apagat forçat enviat. Estat completament resetejat. L\x27equip s\x27apagarà aviat." } }


/-- The diagnostic message of the /init endpoint, one case per probe
outcome (note the offline case overwrites the connectivity message). -/
def initMensaje (cfg : Config) (e : Env) : String :=
  if e.hostOnline then
    match e.service with
    | .ok => "Init: Equip i Ollama funcionant correctament"
    | .badStatus code => "Init: Equip online però Ollama ha respost amb codi " ++ toString code
    | .connectError _ =>
        "Init: Equip online però no es pot connectar a Ollama al port " ++ cfg.ollamaPort
    | .timeout => "Init: Equip online però Ollama no respon (timeout)"
    | .otherError m => "Init: Equip online però error en verificar Ollama: " ++ m
  else "Init: Equip apagat o no accessible"

/-- Result of /init: the final persisted record and the response message. -/
structure InitResult where
  state : Status
  mensaje : String
deriving Repr, DecidableEq

/-- The /init endpoint: probe both levels live, then persist the probed
flags together with counter 0 and permanent_on off, regardless of the prior
record. -/
def init_status (cfg : Config) (e : Env) (s : Status) : InitResult :=
  let equipoOnline := e.hostOnline
  let ollamaOnline := ollamaObserved e
  let m := initMensaje cfg e
  let st := update_status cfg e s
    (fun cur =>
      { cur with
          logical_on := ollamaOnline
          phisical_on := equipoOnline
          peticions_ollama := 0
          permanent_on := false }) m
  { state := st, mensaje := "Estat inicialitzat. " ++ m }

/-- The /permanent_on_enable endpoint: pure flag mutation through
update_status, no remote action. -/
def permanent_on_enable (cfg : Config) (e : Env) (s : Status) : Status :=
  update_status cfg e s (fun cur => { cur with permanent_on := true })
    "Permanent_on activat: l\x27equip no s\x27apagarà automàticament"

/-- The /permanent_on_disable endpoint: pure flag mutation through
update_status, no remote action. -/
def permanent_on_disable (cfg : Config) (e : Env) (s : Status) : Status :=
  update_status cfg e s (fun cur => { cur with permanent_on := false })
    "Permanent_on desactivat: l\x27equip es podrà apagar automàticament"

/-- The /test endpoint: probe both levels and persist the observations
through update_status. -/
def test_ia (cfg : Config) (e : Env) (s : Status) : Status :=
  update_status cfg e s
    (fun cur => { cur with logical_on := ollamaObserved e, phisical_on := e.hostOnline })
    ("Test: " ++ probeMensaje cfg e)

/-- Helper of `pySplit`: walk the characters, cutting at each separator
(Python str.split keeps empty pieces). -/
def pySplitAux (sep : Char) : List Char → List Char → List String
  | [], acc => [String.mk acc.reverse]
  | c :: cs, acc =>
      if c = sep then String.mk acc.reverse :: pySplitAux sep cs []
      else pySplitAux sep cs (c :: acc)

/-- Python str.split with a one-character separator: splitting the empty
string yields the singleton list holding the empty string. -/
def pySplit (s : String) (sep : Char) : List String :=
  pySplitAux sep s.toList []

/-- The configured key list: the API_KEYS environment variable (empty string
when unset) split on commas, so an unset variable yields the singleton list
holding the empty string. -/
def API_KEYS (envVar : Option String) : List String :=
  pySplit (envVar.getD "") ','

/-- The authentication dependency verify_api_key: reject when the header is
missing or empty (Python falsiness of the key) or when the key is not in the
configured list. -/
def verify_api_key (api_key : Option String) (keys : List String) :
    Except HTTPError String :=
  match api_key with
  | none => .error (.unauthorized "Invalid or missing API Key")
  | some k =>
      if k = "" || !keys.contains k then
        .error (.unauthorized "Invalid or missing API Key")
      else .ok k

/-- Outcome of one upstream HTTP call to Ollama, as distinguished by the
proxy handlers' exception branches. -/
inductive UpstreamResult where
  | connectError
  | timeout
  | response (code : Nat) (body : String)
  | otherError (msg : String)
deriving Repr, DecidableEq

/-- Body of a successful proxy response: a buffered JSON body or a streamed
relay of the upstream chunks. -/
inductive ProxyBody where
  | json (body : String)
  | streamRelay
deriving Repr, DecidableEq

/-- Result of a proxy handler: whether an upstream request was issued and
the outcome. -/
structure ProxyResult where
  upstreamCalled : Bool
  outcome : Except HTTPError ProxyBody
deriving Repr

/-- The 503 detail used by every proxy handler when the host probe fails. -/
def proxyUnreachableDetail (cfg : Config) : String :=
  "L\x27equip d\x27IA està apagat o no respon a " ++ cfg.equipoIA ++ ":" ++ toString cfg.sshPort

/-- The 503 detail used when the upstream connect is refused. -/
def ollamaConnectDetail (cfg : Config) : String :=
  "No es pot connectar a Ollama a " ++ cfg.equipoIA ++ ":" ++ cfg.ollamaPort

/-- Common shape of the five Ollama proxy handlers: gate on the host probe
(503, no upstream call, when unreachable), then map the upstream outcome:
connect error to 503, timeout to 504 with the per-handler detail, other
exceptions to 500 with the per-handler detail, a non-200 upstream status to
a pass-through error, and a 200 to the handler's success body (a streamed
relay when the handler streams). -/
def ollama_proxy_core (cfg : Config) (e : Env) (up : UpstreamResult) (stream : Bool)
    (timeoutDetail : String) (genericDetail : String → String)
    (okBody : String → ProxyBody) : ProxyResult :=
  if !e.hostOnline then
    { upstreamCalled := false
      outcome := .error (.serviceUnavailable (proxyUnreachableDetail cfg)) }
  else
    match up with
    | .connectError =>
        { upstreamCalled := true, outcome := .error (.serviceUnavailable (ollamaConnectDetail cfg)) }
    | .timeout =>
        { upstreamCalled := true, outcome := .error (.gatewayTimeout timeoutDetail) }
    | .otherError m =>
        { upstreamCalled := true, outcome := .error (.internalError (genericDetail m)) }
    | .response code body =>
        if code != 200 then
          { upstreamCalled := true
            outcome := .error (.upstream code ("Error d\x27Ollama: " ++ body)) }
        else
          { upstreamCalled := true, outcome := .ok (if stream then .streamRelay else okBody body) }

/-- The /ollama/generate proxy handler. -/
def ollama_generate (cfg : Config) (e : Env) (up : UpstreamResult) (stream : Bool) :
    ProxyResult :=
  ollama_proxy_core cfg e up stream "Timeout en connectar amb Ollama"
    (fun m => "Error en proxy generate: " ++ m) ProxyBody.json

/-- The /ollama/chat proxy handler. -/
def ollama_chat (cfg : Config) (e : Env) (up : UpstreamResult) (stream : Bool) :
    ProxyResult :=
  ollama_proxy_core cfg e up stream "Timeout en connectar amb Ollama"
    (fun m => "Error en proxy chat: " ++ m) ProxyBody.json

/-- The /ollama/pull proxy handler (streaming by default in the source). -/
def ollama_pull (cfg : Config) (e : Env) (up : UpstreamResult) (stream : Bool) :
    ProxyResult :=
  ollama_proxy_core cfg e up stream "Timeout en descarregar model (pot ser que sigui molt gran)"
    (fun m => "Error en proxy pull: " ++ m) ProxyBody.json

/-- The /ollama/delete proxy handler (buffered; answers a fixed success
message naming the deleted model). -/
def ollama_delete (cfg : Config) (e : Env) (up : UpstreamResult) (name : String) :
    ProxyResult :=
  ollama_proxy_core cfg e up false "Timeout en eliminar model"
    (fun m => "Error en proxy delete: " ++ m)
    (fun _ => ProxyBody.json ("Model \x27" ++ name ++ "\x27 eliminat correctament"))

/-- The /ollama/show proxy handler (buffered). -/
def ollama_show (cfg : Config) (e : Env) (up : UpstreamResult) : ProxyResult :=
  ollama_proxy_core cfg e up false "Timeout en obtenir informació del model"
    (fun m => "Error en proxy show: " ++ m) ProxyBody.json

/-- Selector for the five proxy operations. -/
inductive ProxyOp where
  | generate (stream : Bool)
  | chat (stream : Bool)
  | pull (stream : Bool)
  | delete (name : String)
  | showInfo
deriving Repr, DecidableEq

/-- Run a proxy operation against the persisted record: the handlers contain
no access to the status file in the source, so the record is returned
untouched next to the handler's result. -/
def runProxy (cfg : Config) (e : Env) (up : UpstreamResult) (p : ProxyOp) (s : Status) :
    Status × ProxyResult :=
  (s,
    match p with
    | .generate stream => ollama_generate cfg e up stream
    | .chat stream => ollama_chat cfg e up stream
    | .pull stream => ollama_pull cfg e up stream
    | .delete name => ollama_delete cfg e up name
    | .showInfo => ollama_show cfg e up)

/-- One state-relevant API call together with the external world it
observed. -/
inductive SysOp where
  | arrancarOp (e : Env)
  | apagarOp (e : Env) (senv : ShutdownEnv)
  | shutdownOp (e : Env) (senv : ShutdownEnv)
  | initOp (e : Env)
  | enableOp (e : Env)
  | disableOp (e : Env)
  | testOp (e : Env)
  | statusOp (e : Env)
  | proxyOp (e : Env) (up : UpstreamResult) (p : ProxyOp)

/-- The persisted record after one API call. -/
def stepStatus (cfg : Config) (s : Status) : SysOp → Status
  | .arrancarOp e => (arrancar_equipo cfg e s).state
  | .apagarOp e senv => (apagar_equipo cfg e senv s).state
  | .shutdownOp e senv => (shutdown_force cfg e senv s).state
  | .initOp e => (init_status cfg e s).state
  | .enableOp e => permanent_on_enable cfg e s
  | .disableOp e => permanent_on_disable cfg e s
  | .testOp e => test_ia cfg e s
  | .statusOp e => (read_status cfg e s).1
  | .proxyOp e up p => (runProxy cfg e up p s).1

/-- The persisted record after a sequence of API calls. -/
def runOps (cfg : Config) (s : Status) : List SysOp → Status
  | [] => s
  | op :: rest => runOps cfg (stepStatus cfg s op) rest

/-- Iterate the wake endpoint under a fixed environment, counting how many
magic packets were sent. -/
def arrancar_runs (cfg : Config) (e : Env) : Nat → Status → Status × Nat
  | 0, s => (s, 0)
  | Nat.succ n, s =>
      let r := arrancar_equipo cfg e s
      let rest := arrancar_runs cfg e n r.state
      (rest.1, (if r.wolSent then 1 else 0) + rest.2)

lemma read_status_fst (cfg : Config) (e : Env) (s : Status) :
    (read_status cfg e s).1 =
      if s.logical_on != ollamaObserved e || s.phisical_on != e.hostOnline then
        { s with
            logical_on := ollamaObserved e
            phisical_on := e.hostOnline
            message := "Estat verificat: " ++ probeMensaje cfg e
            datetime := e.now }
      else s := by
  unfold read_status
  split <;> simp_all

lemma read_status_fst_peticions (cfg : Config) (e : Env) (s : Status) :
    (read_status cfg e s).1.peticions_ollama = s.peticions_ollama := by
  rw [read_status_fst]; split <;> rfl

lemma read_status_fst_permanent (cfg : Config) (e : Env) (s : Status) :
    (read_status cfg e s).1.permanent_on = s.permanent_on := by
  rw [read_status_fst]; split <;> rfl

lemma read_status_fst_logical (cfg : Config) (e : Env) (s : Status) :
    (read_status cfg e s).1.logical_on = ollamaObserved e := by
  rw [read_status_fst]
  split
  · rfl
  · next h =>
      simp at h
      exact h.1

lemma read_status_fst_phisical (cfg : Config) (e : Env) (s : Status) :
    (read_status cfg e s).1.phisical_on = e.hostOnline := by
  rw [read_status_fst]
  split
  · rfl
  · next h =>
      simp at h
      exact h.2

lemma update_status_eq (cfg : Config) (e : Env) (s : Status)
    (updates : Status → Status) (message : String) :
    update_status cfg e s updates message =
      { updates ((read_status cfg e s).1) with message := message, datetime := e.now } := rfl

lemma arrancar_state (cfg : Config) (e : Env) (s : Status) :
    (arrancar_equipo cfg e s).state.peticions_ollama = s.peticions_ollama + 1
    ∧ (arrancar_equipo cfg e s).state.permanent_on = s.permanent_on
    ∧ (arrancar_equipo cfg e s).wolSent = !e.hostOnline := by
  unfold arrancar_equipo
  cases h : e.hostOnline <;>
    simp [update_status_eq, read_status_fst_peticions, read_status_fst_permanent]

lemma apagar_counter (cfg : Config) (e : Env) (senv : ShutdownEnv) (s : Status) :
    (apagar_equipo cfg e senv s).state.peticions_ollama = max 0 (s.peticions_ollama - 1)
    ∨ (apagar_equipo cfg e senv s).state.peticions_ollama = s.peticions_ollama := by
  unfold apagar_equipo
  cases h : e.hostOnline
  · left
    simp [update_status_eq, read_status_fst_peticions]
  · simp only [Bool.not_true, Bool.false_eq_true, if_false, ite_false]
    split
    · left
      simp [update_status_eq, read_status_fst_peticions]
    · split
      · right
        simp [read_status_fst_peticions]
      · left
        simp [update_status_eq, read_status_fst_peticions]

lemma shutdown_force_counter (cfg : Config) (e : Env) (senv : ShutdownEnv) (s : Status) :
    (shutdown_force cfg e senv s).state.peticions_ollama = 0
    ∨ (shutdown_force cfg e senv s).state.peticions_ollama = s.peticions_ollama := by
  unfold shutdown_force
  cases h : e.hostOnline
  · left
    simp [update_status_eq]
  · simp only [Bool.not_true, Bool.false_eq_true, if_false, ite_false]
    split
    · right; rfl
    · left
      simp [update_status_eq]

lemma init_status_counter (cfg : Config) (e : Env) (s : Status) :
    (init_status cfg e s).state.peticions_ollama = 0 := by
  simp [init_status, update_status_eq]

lemma permanent_on_enable_counter (cfg : Config) (e : Env) (s : Status) :
    (permanent_on_enable cfg e s).peticions_ollama = s.peticions_ollama := by
  simp [permanent_on_enable, update_status_eq, read_status_fst_peticions]

lemma permanent_on_disable_counter (cfg : Config) (e : Env) (s : Status) :
    (permanent_on_disable cfg e s).peticions_ollama = s.peticions_ollama := by
  simp [permanent_on_disable, update_status_eq, read_status_fst_peticions]

lemma test_ia_counter (cfg : Config) (e : Env) (s : Status) :
    (test_ia cfg e s).peticions_ollama = s.peticions_ollama := by
  simp [test_ia, update_status_eq, read_status_fst_peticions]

lemma stepStatus_nonneg (cfg : Config) (s : Status) (op : SysOp)
    (h : 0 ≤ s.peticions_ollama) : 0 ≤ (stepStatus cfg s op).peticions_ollama := by
  cases op with
  | arrancarOp e =>
      have := (arrancar_state cfg e s).1
      simp only [stepStatus]
      omega
  | apagarOp e senv =>
      rcases apagar_counter cfg e senv s with hc | hc <;>
        simp only [stepStatus, hc] <;> omega
  | shutdownOp e senv =>
      rcases shutdown_force_counter cfg e senv s with hc | hc <;>
        simp only [stepStatus, hc] <;> omega
  | initOp e =>
      simp only [stepStatus, init_status_counter]; exact le_refl 0
  | enableOp e =>
      simp only [stepStatus, permanent_on_enable_counter]; exact h
  | disableOp e =>
      simp only [stepStatus, permanent_on_disable_counter]; exact h
  | testOp e =>
      simp only [stepStatus, test_ia_counter]; exact h
  | statusOp e =>
      simp only [stepStatus, read_status_fst_peticions]; exact h
  | proxyOp e up p =>
      simp only [stepStatus, runProxy]; exact h

lemma runOps_nonneg (cfg : Config) (ops : List SysOp) (s : Status)
    (h : 0 ≤ s.peticions_ollama) : 0 ≤ (runOps cfg s ops).peticions_ollama := by
  induction ops generalizing s with
  | nil => exact h
  | cons op rest ih =>
      exact ih (stepStatus cfg s op) (stepStatus_nonneg cfg s op h)

lemma arrancar_runs_spec (cfg : Config) (e : Env) (n : Nat) (s : Status) :
    (arrancar_runs cfg e n s).1.peticions_ollama = s.peticions_ollama + (n : Int)
    ∧ (arrancar_runs cfg e n s).2 = (if e.hostOnline then 0 else n) := by
  induction n generalizing s with
  | zero => simp [arrancar_runs]
  | succ n ih =>
      obtain ⟨h1, h2, h3⟩ := arrancar_state cfg e s
      obtain ⟨ih1, ih2⟩ := ih (arrancar_equipo cfg e s).state
      constructor
      · simp only [arrancar_runs]
        rw [ih1, h1]
        push_cast
        ring
      · simp only [arrancar_runs]
        rw [ih2, h3]
        cases e.hostOnline <;> simp [Nat.add_comm]

/-- Concrete configuration used by the witnesses (the values of the test
fixtures). -/
def cfg0 : Config :=
  { equipoIA := "192.168.1.100"
    iaMac := "00:11:22:33:44:55"
    ollamaPort := "11434"
    sshPort := 22
    wolBroadcast := "192.168.1.255"
    wolPort := 9 }

/-- Witness environment: host reachable, service healthy. -/
def envOn0 : Env := { hostOnline := true, service := .ok, now := 7 }

/-- Witness environment: host unreachable. -/
def envOff0 : Env := { hostOnline := false, service := .connectError "refused", now := 7 }

/-- Witness SSH world: sudo shutdown succeeds at once. -/
def senvOk0 : ShutdownEnv :=
  { sudoConnect := .ok, sudoExit := 0, sudoStdout := "", sudoStderr := ""
    fallbackConnect := .ok, fallbackExit := 0, fallbackStdout := "", fallbackStderr := "" }

/-- Witness SSH world: the sudo attempt and the fallback both exit non-zero,
each with distinctive captured output. -/
def senvBothFail0 : ShutdownEnv :=
  { sudoConnect := .ok, sudoExit := 1, sudoStdout := "SUDO-OUT", sudoStderr := "SUDO-ERR"
    fallbackConnect := .ok, fallbackExit := 1
    fallbackStdout := "FALLBACK-OUT", fallbackStderr := "FALLBACK-ERR" }

/-- Witness record: freshly reset, counter 0, host off. -/
def sZero : Status :=
  { logical_on := false, phisical_on := false, peticions_ollama := 0
    permanent_on := false, message := "Equip desconnectat", datetime := 0 }

/-- Witness record: two outstanding requests, host on. -/
def sTwo : Status :=
  { logical_on := true, phisical_on := true, peticions_ollama := 2
    permanent_on := false, message := "ok", datetime := 3 }

/-- Witness record: one outstanding request, host on. -/
def sOne : Status :=
  { logical_on := true, phisical_on := true, peticions_ollama := 1
    permanent_on := false, message := "ok", datetime := 3 }

/-- Witness record: one outstanding request with permanent_on set. -/
def sPerm : Status :=
  { logical_on := true, phisical_on := true, peticions_ollama := 1
    permanent_on := true, message := "ok", datetime := 3 }

/-- Witness record: ten outstanding requests with permanent_on set. -/
def sTen : Status :=
  { logical_on := true, phisical_on := true, peticions_ollama := 10
    permanent_on := true, message := "ok", datetime := 3 }

/-- C2: every wake call increments the counter by exactly 1, regardless of
the physical state and of permanent_on (which it never reads as a gate and
leaves unchanged), and the magic packet is sent exactly when the host probe
failed; iterating N wake calls under a fixed unreachable (resp. reachable)
host yields counter old+N with N (resp. 0) packets sent. -/
theorem arrancar_increment_and_wol (cfg : Config) (e : Env) (s : Status) (n : Nat) :
    (arrancar_equipo cfg e s).state.peticions_ollama = s.peticions_ollama + 1
    ∧ (arrancar_equipo cfg e s).state.permanent_on = s.permanent_on
    ∧ (arrancar_equipo cfg e s).wolSent = !e.hostOnline
    ∧ (arrancar_runs cfg e n s).1.peticions_ollama = s.peticions_ollama + (n : Int)
    ∧ (arrancar_runs cfg e n s).2 = (if e.hostOnline then 0 else n) :=
  ⟨(arrancar_state cfg e s).1, (arrancar_state cfg e s).2.1, (arrancar_state cfg e s).2.2,
   (arrancar_runs_spec cfg e n s).1, (arrancar_runs_spec cfg e n s).2⟩

/-- C3: starting from a nonnegative counter, no sequence of API calls ever
drives peticions_ollama negative, and a shutdown request on counter 0 with
the host unreachable leaves the counter at 0. -/
theorem peticions_never_negative (cfg : Config) (s : Status) (ops : List SysOp)
    (h : 0 ≤ s.peticions_ollama) :
    0 ≤ (runOps cfg s ops).peticions_ollama
    ∧ (∀ e senv, e.hostOnline = false → s.peticions_ollama = 0 →
        (apagar_equipo cfg e senv s).state.peticions_ollama = 0) := by
  refine ⟨runOps_nonneg cfg ops s h, ?_⟩
  intro e senv he h0
  unfold apagar_equipo
  rw [he]
  simp [update_status_eq, read_status_fst_peticions, h0]

/-- Closed witness for C3: a concrete wake-then-shutdown run keeps the
counter nonnegative, and a shutdown request from counter 0 with the host
off leaves it at 0. -/
theorem peticions_never_negative_witness :
    0 ≤ (runOps cfg0 sZero
          [SysOp.arrancarOp envOff0, SysOp.apagarOp envOff0 senvOk0]).peticions_ollama
    ∧ (apagar_equipo cfg0 envOff0 senvOk0 sZero).state.peticions_ollama = 0 := by
  have h := peticions_never_negative cfg0 sZero
    [SysOp.arrancarOp envOff0, SysOp.apagarOp envOff0 senvOk0] (by decide)
  exact ⟨h.1, h.2 envOff0 senvOk0 rfl rfl⟩

/-- C7: the /init endpoint always persists counter 0 and permanent_on off,
whatever the prior record held, and persists the two observation flags from
the live probes of the call (their values do not depend on the stale
record). -/
theorem init_resets_and_uses_live_probes (cfg : Config) (e : Env) (s : Status) :
    (init_status cfg e s).state.peticions_ollama = 0
    ∧ (init_status cfg e s).state.permanent_on = false
    ∧ (init_status cfg e s).state.phisical_on = e.hostOnline
    ∧ (init_status cfg e s).state.logical_on = ollamaObserved e := by
  simp [init_status, update_status_eq]

/-- C8: read_status persists a write exactly when one of the observed flags
differs from the stored flag, and the write changes only the two flags, the
message and the timestamp; the counter and permanent_on always come out
unchanged. -/
theorem read_status_write_iff_flags_differ (cfg : Config) (e : Env) (s : Status) :
    (read_status cfg e s).2
        = (s.logical_on != ollamaObserved e || s.phisical_on != e.hostOnline)
    ∧ (read_status cfg e s).1
        = (if s.logical_on != ollamaObserved e || s.phisical_on != e.hostOnline then
            { s with
                logical_on := ollamaObserved e
                phisical_on := e.hostOnline
                message := "Estat verificat: " ++ probeMensaje cfg e
                datetime := e.now }
          else s)
    ∧ (read_status cfg e s).1.peticions_ollama = s.peticions_ollama
    ∧ (read_status cfg e s).1.permanent_on = s.permanent_on := by
  refine ⟨?_, read_status_fst cfg e s, read_status_fst_peticions cfg e s,
    read_status_fst_permanent cfg e s⟩
  unfold read_status
  dsimp only
  split <;> simp_all

/-- C10: with the API_KEYS variable unset the configured key list is the
singleton list holding the empty string, yet a missing or empty-string
token is rejected with 401 for every configured key list (Python falsiness
is checked before membership). -/
theorem verify_api_key_rejects_empty :
    API_KEYS none = [""]
    ∧ ("" : String) ∈ API_KEYS none
    ∧ (∀ keys : List String,
        verify_api_key none keys = .error (.unauthorized "Invalid or missing API Key"))
    ∧ (∀ keys : List String,
        verify_api_key (some "") keys = .error (.unauthorized "Invalid or missing API Key")) := by
  refine ⟨by decide, by decide, fun keys => rfl, fun keys => rfl⟩

/-- C1: for a shutdown request while the host is reachable, the new counter
is max(0, old-1) and the SSH power-off sequence is entered exactly when the
new counter is below 1 and permanent_on is off; when it is blocked, the
persisted record changes only the counter (flags keep the reconciled
observations), with the message naming the blocking reason (permanent_on,
or the number of active requests), and when the actuator succeeds the
persisted counter is the decremented one. -/
theorem apagar_reachable_decrement_and_gate (cfg : Config) (e : Env)
    (senv : ShutdownEnv) (s : Status) (h : e.hostOnline = true) :
    (apagar_equipo cfg e senv s).shutdownAttempted
        = (decide (max 0 (s.peticions_ollama - 1) < 1) && !s.permanent_on)
    ∧ ((decide (max 0 (s.peticions_ollama - 1) < 1) && !s.permanent_on) = false →
        (apagar_equipo cfg e senv s).state =
          { logical_on := ollamaObserved e
            phisical_on := true
            peticions_ollama := max 0 (s.peticions_ollama - 1)
            permanent_on := s.permanent_on
            message := "Apagar: No s\x27apaga físicament (" ++
              apagarReason s.permanent_on (max 0 (s.peticions_ollama - 1)) ++
              "). Peticions: " ++ toString (max 0 (s.peticions_ollama - 1))
            datetime := e.now }
        ∧ (apagar_equipo cfg e senv s).outcome = Except.ok
            { success := true
              mensaje := "Comptador decrementat a " ++
                toString (max 0 (s.peticions_ollama - 1)) ++
                ". No s\x27apaga físicament: " ++
                apagarReason s.permanent_on (max 0 (s.peticions_ollama - 1)) })
    ∧ (∀ u : Unit, ssh_shutdown apagarSshDetail senv = .ok u →
        (apagar_equipo cfg e senv s).state.peticions_ollama
          = max 0 (s.peticions_ollama - 1)) := by
  unfold apagar_equipo
  rw [h]
  simp only [Bool.not_true, Bool.false_eq_true, if_false, read_status_fst_peticions,
    read_status_fst_permanent, update_status_eq]
  refine ⟨?_, ?_, ?_⟩
  · split
    · next hg =>
        simp_all
        intro hx
        rcases hg with hg | hg
        · omega
        · exact hg
    · next hg =>
        split <;> simp_all
  · intro hgate
    split
    · next hg =>
        constructor
        · simp only [read_status_fst_logical, read_status_fst_phisical, h]
        · rfl
    · next hg =>
        exfalso
        rw [hgate] at hg
        simp at hg
  · intro u hu
    split
    · next hg =>
        simp [read_status_fst_peticions]
    · next hg =>
        rw [hu]

/-- Closed witness for C1 at counter 2 with the host reachable: the power
off is blocked, the persisted counter is 1 and the message cites the one
active request. -/
theorem apagar_reachable_decrement_and_gate_witness :
    (apagar_equipo cfg0 envOn0 senvOk0 sTwo).shutdownAttempted = false
    ∧ (apagar_equipo cfg0 envOn0 senvOk0 sTwo).state.peticions_ollama = 1
    ∧ (apagar_equipo cfg0 envOn0 senvOk0 sTwo).state.message =
        "Apagar: No s\x27apaga físicament (hi ha 1 petició(ns) activa(es)). Peticions: 1" := by
  have h := apagar_reachable_decrement_and_gate cfg0 envOn0 senvOk0 sTwo rfl
  refine ⟨h.1.trans (by decide), ?_, ?_⟩
  · rw [(h.2.1 (by decide)).1]
    decide
  · rw [(h.2.1 (by decide)).1]
    decide

/-- C4: when the host is reachable, the power-off gate holds and the SSH
shutdown sequence fails (both attempts included), the shutdown request
surfaces that error and the persisted record is exactly the reconciled
read: the counter and permanent_on keep their prior values and the flags
keep the live observations (in particular the record is not marked off). -/
theorem apagar_actuator_failure_preserves_state (cfg : Config) (e : Env)
    (senv : ShutdownEnv) (s : Status) (h : e.hostOnline = true)
    (hgate : (decide (max 0 (s.peticions_ollama - 1) < 1) && !s.permanent_on) = true)
    (err : HTTPError) (hfail : ssh_shutdown apagarSshDetail senv = .error err) :
    (apagar_equipo cfg e senv s).outcome = .error err
    ∧ (apagar_equipo cfg e senv s).state = (read_status cfg e s).1
    ∧ (apagar_equipo cfg e senv s).state.peticions_ollama = s.peticions_ollama
    ∧ (apagar_equipo cfg e senv s).state.permanent_on = s.permanent_on
    ∧ (apagar_equipo cfg e senv s).state.phisical_on = true
    ∧ (apagar_equipo cfg e senv s).state.logical_on = ollamaObserved e := by
  unfold apagar_equipo
  rw [h]
  simp only [Bool.not_true, Bool.false_eq_true, if_false, read_status_fst_peticions,
    read_status_fst_permanent]
  rw [hgate]
  simp only [Bool.not_true, Bool.false_eq_true, if_false]
  rw [hfail]
  refine ⟨rfl, rfl, read_status_fst_peticions cfg e s, read_status_fst_permanent cfg e s,
    ?_, read_status_fst_logical cfg e s⟩
  rw [read_status_fst_phisical, h]

/-- Closed witness for C4: counter 1, host reachable, both SSH attempts
exit non-zero; the error is surfaced and the persisted counter stays 1 with
the host still marked on. -/
theorem apagar_actuator_failure_preserves_state_witness :
    (apagar_equipo cfg0 envOn0 senvBothFail0 sOne).outcome =
      .error (.internalError "Error en executar shutdown. Sortida: SUDO-OUT. Error: SUDO-ERR")
    ∧ (apagar_equipo cfg0 envOn0 senvBothFail0 sOne).state.peticions_ollama = 1
    ∧ (apagar_equipo cfg0 envOn0 senvBothFail0 sOne).state.phisical_on = true := by
  have h := apagar_actuator_failure_preserves_state cfg0 envOn0 senvBothFail0 sOne rfl
    (by decide)
    (.internalError "Error en executar shutdown. Sortida: SUDO-OUT. Error: SUDO-ERR") rfl
  exact ⟨h.1, h.2.2.1, h.2.2.2.2.1⟩

/-- C6: the forced shutdown enters the SSH sequence exactly when the host is
reachable, regardless of the counter and of permanent_on, and both when the
host is already unreachable and when the SSH sequence succeeds the persisted
record is the full reset: counter 0, permanent_on, logical_on and
phisical_on all off. -/
theorem shutdown_force_ignores_gate_and_resets (cfg : Config) (e : Env)
    (senv : ShutdownEnv) (s : Status) :
    (shutdown_force cfg e senv s).shutdownAttempted = e.hostOnline
    ∧ (e.hostOnline = false →
        (shutdown_force cfg e senv s).state.peticions_ollama = 0
        ∧ (shutdown_force cfg e senv s).state.permanent_on = false
        ∧ (shutdown_force cfg e senv s).state.logical_on = false
        ∧ (shutdown_force cfg e senv s).state.phisical_on = false)
    ∧ (ssh_shutdown shutdownForceDetail senv = .ok () →
        (shutdown_force cfg e senv s).state.peticions_ollama = 0
        ∧ (shutdown_force cfg e senv s).state.permanent_on = false
        ∧ (shutdown_force cfg e senv s).state.logical_on = false
        ∧ (shutdown_force cfg e senv s).state.phisical_on = false) := by
  unfold shutdown_force
  cases he : e.hostOnline
  · simp [update_status_eq]
  · simp only [Bool.not_true, Bool.false_eq_true, if_false]
    split
    · next err heq =>
        refine ⟨rfl, fun hc => by simp at hc, fun hok => ?_⟩
        rw [hok] at heq
        exact absurd heq (by simp)
    · next u heq =>
        refine ⟨rfl, fun hc => by simp at hc, fun hok => ?_⟩
        simp [update_status_eq]

/-- Closed witness for C6 at counter 10 with permanent_on set and the host
reachable: the SSH sequence is entered and the persisted record is the full
reset. -/
theorem shutdown_force_ignores_gate_and_resets_witness :
    (shutdown_force cfg0 envOn0 senvOk0 sTen).shutdownAttempted = true
    ∧ (shutdown_force cfg0 envOn0 senvOk0 sTen).state.peticions_ollama = 0
    ∧ (shutdown_force cfg0 envOn0 senvOk0 sTen).state.permanent_on = false
    ∧ (shutdown_force cfg0 envOn0 senvOk0 sTen).state.logical_on = false
    ∧ (shutdown_force cfg0 envOn0 senvOk0 sTen).state.phisical_on = false := by
  obtain ⟨h1, _, h3⟩ := shutdown_force_ignores_gate_and_resets cfg0 envOn0 senvOk0 sTen
  have hr := h3 rfl
  exact ⟨h1, hr.1, hr.2.1, hr.2.2.1, hr.2.2.2⟩

/-- C9: every Ollama proxy operation leaves the persisted record untouched,
and when the host probe fails it answers 503 with the unreachable detail
and issues no upstream request. -/
theorem proxy_unreachable_and_frame (cfg : Config) (e : Env) (up : UpstreamResult)
    (p : ProxyOp) (s : Status) :
    (runProxy cfg e up p s).1 = s
    ∧ (e.hostOnline = false →
        (runProxy cfg e up p s).2.upstreamCalled = false
        ∧ (runProxy cfg e up p s).2.outcome =
            .error (.serviceUnavailable (proxyUnreachableDetail cfg))) := by
  refine ⟨rfl, fun he => ?_⟩
  cases p <;>
    simp [runProxy, ollama_generate, ollama_chat, ollama_pull, ollama_delete, ollama_show,
      ollama_proxy_core, he]

/-- Closed witness for C9: a streaming generate call with the host off is
answered 503 without an upstream call and with the record unchanged. -/
theorem proxy_unreachable_and_frame_witness :
    (runProxy cfg0 envOff0 UpstreamResult.connectError (ProxyOp.generate true) sOne).1 = sOne
    ∧ (runProxy cfg0 envOff0 UpstreamResult.connectError
        (ProxyOp.generate true) sOne).2.upstreamCalled = false
    ∧ (runProxy cfg0 envOff0 UpstreamResult.connectError
        (ProxyOp.generate true) sOne).2.outcome =
          .error (.serviceUnavailable (proxyUnreachableDetail cfg0)) := by
  have h := proxy_unreachable_and_frame cfg0 envOff0 UpstreamResult.connectError
    (ProxyOp.generate true) sOne
  exact ⟨h.1, (h.2 rfl).1, (h.2 rfl).2⟩

/-- Counterexample to C5: with the sudo attempt exiting 1 (stdout SUDO-OUT,
stderr SUDO-ERR) and the fallback attempt also exiting 1 (stdout
FALLBACK-OUT, stderr FALLBACK-ERR), the surfaced internal error carries the
sudo attempt's output only — neither the fallback's stdout nor its stderr
occurs anywhere in the surfaced detail, so the error does not carry the
captured output of both attempts. -/
theorem shutdown_error_output_counterexample :
    (apagar_equipo cfg0 envOn0 senvBothFail0 sOne).outcome =
      .error (.internalError "Error en executar shutdown. Sortida: SUDO-OUT. Error: SUDO-ERR")
    ∧ senvBothFail0.fallbackStderr = "FALLBACK-ERR"
    ∧ senvBothFail0.fallbackExit ≠ 0
    ∧ ¬ List.IsInfix "FALLBACK-ERR".toList
        "Error en executar shutdown. Sortida: SUDO-OUT. Error: SUDO-ERR".toList
    ∧ ¬ List.IsInfix "FALLBACK-OUT".toList
        "Error en executar shutdown. Sortida: SUDO-OUT. Error: SUDO-ERR".toList := by
  exact ⟨rfl, rfl, by decide, by decide, by decide⟩

/-- C5 amended: when the sudo shutdown command exits non-zero and the
non-privileged fallback also runs and exits non-zero, the operation surfaces
a single internal error whose detail is built from the sudo attempt's
captured stdout and stderr; the fallback attempt contributes only its exit
status (its output is never captured), and both /apagar (when its gate
fires) and /shutdown surface exactly that error. -/
theorem shutdown_error_output_amended (cfg : Config) (e : Env) (senv : ShutdownEnv)
    (s : Status) (hsc : senv.sudoConnect = .ok) (hse : senv.sudoExit ≠ 0)
    (hfc : senv.fallbackConnect = .ok) (hfe : senv.fallbackExit ≠ 0) :
    (∀ d : String → String, ssh_shutdown d senv = .error (.internalError
        ("Error en executar shutdown. Sortida: " ++ senv.sudoStdout ++
          ". Error: " ++ senv.sudoStderr)))
    ∧ (e.hostOnline = true →
        (shutdown_force cfg e senv s).outcome = .error (.internalError
          ("Error en executar shutdown. Sortida: " ++ senv.sudoStdout ++
            ". Error: " ++ senv.sudoStderr)))
    ∧ (e.hostOnline = true →
        (decide (max 0 (s.peticions_ollama - 1) < 1) && !s.permanent_on) = true →
        (apagar_equipo cfg e senv s).outcome = .error (.internalError
          ("Error en executar shutdown. Sortida: " ++ senv.sudoStdout ++
            ". Error: " ++ senv.sudoStderr))) := by
  have hssh : ∀ d : String → String, ssh_shutdown d senv = .error (.internalError
      ("Error en executar shutdown. Sortida: " ++ senv.sudoStdout ++
        ". Error: " ++ senv.sudoStderr)) := by
    intro d
    unfold ssh_shutdown
    rw [hsc, hfc]
    simp [bne_iff_ne, hse, hfe]
  refine ⟨hssh, fun h => ?_, fun h hgate => ?_⟩
  · unfold shutdown_force
    rw [h]
    simp only [Bool.not_true, Bool.false_eq_true, if_false]
    rw [hssh shutdownForceDetail]
  · unfold apagar_equipo
    rw [h]
    simp only [Bool.not_true, Bool.false_eq_true, if_false, read_status_fst_peticions,
      read_status_fst_permanent]
    rw [hgate]
    simp only [Bool.not_true, Bool.false_eq_true, if_false]
    rw [hssh apagarSshDetail]

/-- Closed witness for the amended C5 at the concrete double-failure SSH
world: /shutdown with the host reachable surfaces the sudo attempt's
captured output as the single error. -/
theorem shutdown_error_output_amended_witness :
    (shutdown_force cfg0 envOn0 senvBothFail0 sOne).outcome =
      .error (.internalError "Error en executar shutdown. Sortida: SUDO-OUT. Error: SUDO-ERR") := by
  have h := shutdown_error_output_amended cfg0 envOn0 senvBothFail0 sOne rfl
    (by decide) rfl (by decide)
  exact h.2.1 rfl
